import Mathlib

/-!
Shallow embedding of the cross-platform keyword analytics core of the
Wpp-Total-Search repository, covering:

* `src/frontend/src/lib/demo-data.ts` — raw keyword fixtures,
  `buildCrossPlatform`, `KEYWORDS`, `KEYWORD_INDEX`, `findKeyword`,
  `searchKeywords`, the ads fixture and `getBrandAdsLocal` / `getAdKeywords`;
* the client-side analyzer module — `STRATEGIC_PAIRS`, `findGaps`,
  `calcScore`, `analyzeKeyword`, `runBrandCoverage`;
* the local API client (`src/frontend/src/lib/api.ts`) —
  `getCrossPlatformKeyword`.

Modelling conventions: JavaScript numbers are modelled as rationals (all
fixture data and all arithmetic in the analyzed code is exact decimal
arithmetic well within double precision); JS objects/records and `Map`s are
modelled as insertion-ordered association lists (all fixture records have
pairwise distinct keys, so first-match lookup coincides with JS `Map`
lookup); JS strings are Lean strings, with `toLowerCase` / `trim` /
`startsWith` / `includes` modelled on the underlying character lists
(fixture data is ASCII).  Human-readable `recommendation` strings are
display-only text assembled by locale-dependent number formatting from
fields that are themselves recorded in the same structures; they are
omitted from the embedding.
-/

attribute [local semireducible] Rat.ofScientific Rat.mul Rat.inv Rat.add Rat.sub

set_option maxRecDepth 100000

namespace WppTotalSearch

/-! ### String operations (models of the JS string methods used) -/

/-- Model of JS `String.prototype.toLowerCase` (ASCII data). -/
def lowerStr (s : String) : String := String.mk (s.data.map Char.toLower)

/-- Whitespace test used by the trim model. -/
def isWsChar (c : Char) : Bool := c.isWhitespace

/-- Drop leading and trailing whitespace from a character list. -/
def trimChars (l : List Char) : List Char :=
  ((l.dropWhile isWsChar).reverse.dropWhile isWsChar).reverse

/-- Model of JS `String.prototype.trim`. -/
def trimStr (s : String) : String := String.mk (trimChars s.data)

/-- Model of JS `s.startsWith(q)`. -/
def startsWithStr (s q : String) : Bool := q.data.isPrefixOf s.data

/-- Substring occurrence on character lists: does `needle` occur inside `hay`? -/
def containsSub (needle : List Char) : List Char → Bool
  | [] => needle.isPrefixOf []
  | c :: t => needle.isPrefixOf (c :: t) || containsSub needle t

/-- Model of JS `s.includes(q)`. -/
def includesStr (s q : String) : Bool := containsSub q.data s.data

/-! ### Data model (`types.ts`) -/

/-- Source `RawPlatform` of demo-data.ts. -/
structure RawPlatform where
  volume : ℚ
  cpc : Option ℚ
  competition : Option ℚ
  trend : List ℚ
  deriving DecidableEq, Repr

/-- Source `RawKeyword` of demo-data.ts; the `platforms` record literal is an
insertion-ordered list of (platform id, raw datum) with distinct keys. -/
structure RawKeyword where
  keyword : String
  platforms : List (String × RawPlatform)
  deriving DecidableEq, Repr

/-- Source `PlatformData` of types.ts (the `platform` discriminator is kept as a
plain string; the source's `Platform` union is a set of string literals). -/
structure PlatformData where
  platform : String
  volume : ℚ
  cpc : Option ℚ
  competition : Option ℚ
  trend : List ℚ
  is_estimated : Bool
  deriving DecidableEq, Repr

/-- Source `CrossPlatformKeyword` of types.ts. -/
structure CrossPlatformKeyword where
  keyword : String
  platforms : List (String × PlatformData)
  total_volume : ℚ
  primary_platform : Option String
  deriving DecidableEq, Repr

/-! ### `toPlatformData` and `buildCrossPlatform` (demo-data.ts lines 20–55) -/

/-- Source `toPlatformData` of demo-data.ts. -/
def toPlatformData (key : String) (raw : RawPlatform) : PlatformData :=
  { platform := key
    volume := raw.volume
    cpc := raw.cpc
    competition := raw.competition
    trend := raw.trend
    is_estimated := !(["google", "bing"].contains key) }

/-- One step of the `maxVol` / `primaryPlatform` accumulation in the
`buildCrossPlatform` loop: update when `pd.volume > maxVol`. -/
def primaryStep (acc : ℚ × Option String) (e : String × RawPlatform) :
    ℚ × Option String :=
  if acc.1 < e.2.volume then (e.2.volume, some e.1) else acc

/-- Source `buildCrossPlatform` of demo-data.ts.  The single loop of the source
accumulates three independent results (platform map, total volume, running
max/primary); they are expressed as a map, a sum and a fold. -/
def buildCrossPlatform (raw : RawKeyword) : CrossPlatformKeyword :=
  { keyword := raw.keyword
    platforms := raw.platforms.map (fun e => (e.1, toPlatformData e.1 e.2))
    total_volume := (raw.platforms.map (fun e => e.2.volume)).sum
    primary_platform := (raw.platforms.foldl primaryStep (0, none)).2 }

/-! ### Raw keyword fixtures (`RAW_KEYWORDS`, demo-data.ts lines 59–159) -/

/-- Fixture 0 of `RAW_KEYWORDS`. -/
def raw_protein_powder : RawKeyword :=
  { keyword := "protein powder"
    platforms :=
      [ ("google",
          { volume := 450000, cpc := some 1.85, competition := some 0.72,
            trend := [420000,430000,445000,460000,470000,480000,475000,465000,450000,440000,445000,450000] })
      , ("youtube",
          { volume := 320000, cpc := none, competition := none,
            trend := [300000,310000,315000,320000,325000,330000,328000,322000,318000,315000,318000,320000] })
      , ("tiktok",
          { volume := 890000, cpc := none, competition := none,
            trend := [650000,700000,750000,800000,850000,880000,890000,895000,890000,885000,888000,890000] })
      , ("instagram",
          { volume := 245000, cpc := none, competition := none,
            trend := [220000,225000,230000,235000,240000,242000,244000,245000,245000,244000,244000,245000] })
      , ("amazon",
          { volume := 560000, cpc := some 2.10, competition := some 0.85,
            trend := [520000,530000,540000,550000,555000,560000,565000,562000,558000,555000,558000,560000] }) ] }

/-- Fixture 1 of `RAW_KEYWORDS`. -/
def raw_grwm_protein_shake : RawKeyword :=
  { keyword := "grwm protein shake"
    platforms :=
      [ ("google",
          { volume := 2400, cpc := some 0.45, competition := some 0.15,
            trend := [800,1000,1200,1500,1800,2000,2100,2200,2300,2350,2380,2400] })
      , ("youtube",
          { volume := 45000, cpc := none, competition := none,
            trend := [25000,28000,32000,36000,40000,42000,43500,44000,44500,44800,45000,45000] })
      , ("tiktok",
          { volume := 340000, cpc := none, competition := none,
            trend := [180000,210000,250000,280000,300000,315000,325000,332000,336000,338000,339000,340000] })
      , ("instagram",
          { volume := 89000, cpc := none, competition := none,
            trend := [45000,52000,60000,68000,75000,80000,83000,85000,87000,88000,88500,89000] })
      , ("amazon",
          { volume := 0, cpc := none, competition := none,
            trend := [0,0,0,0,0,0,0,0,0,0,0,0] }) ] }

/-- Fixture 2 of `RAW_KEYWORDS`. -/
def raw_best_vegan_protein_2024 : RawKeyword :=
  { keyword := "best vegan protein 2024"
    platforms :=
      [ ("google",
          { volume := 74000, cpc := some 2.40, competition := some 0.68,
            trend := [55000,58000,62000,66000,70000,72000,73000,73500,74000,74000,74000,74000] })
      , ("youtube",
          { volume := 89000, cpc := none, competition := none,
            trend := [65000,70000,75000,80000,84000,86000,87500,88000,88500,89000,89000,89000] })
      , ("tiktok",
          { volume := 245000, cpc := none, competition := none,
            trend := [150000,170000,190000,210000,225000,235000,240000,242000,244000,245000,245000,245000] })
      , ("instagram",
          { volume := 67000, cpc := none, competition := none,
            trend := [45000,50000,55000,58000,62000,64000,65500,66000,66500,67000,67000,67000] })
      , ("amazon",
          { volume := 156000, cpc := some 1.95, competition := some 0.78,
            trend := [120000,128000,136000,142000,148000,152000,154000,155000,155500,156000,156000,156000] }) ] }

/-- Fixture 3 of `RAW_KEYWORDS`. -/
def raw_gym_aesthetic : RawKeyword :=
  { keyword := "gym aesthetic"
    platforms :=
      [ ("google",
          { volume := 8100, cpc := some 0.35, competition := some 0.22,
            trend := [5000,5500,6000,6500,7000,7400,7700,7900,8000,8050,8080,8100] })
      , ("youtube",
          { volume := 125000, cpc := none, competition := none,
            trend := [80000,90000,98000,105000,112000,118000,121000,123000,124000,124500,125000,125000] })
      , ("tiktok",
          { volume := 1200000, cpc := none, competition := none,
            trend := [700000,800000,900000,980000,1050000,1100000,1140000,1170000,1185000,1195000,1198000,1200000] })
      , ("instagram",
          { volume := 890000, cpc := none, competition := none,
            trend := [600000,680000,750000,800000,840000,865000,878000,885000,888000,889500,890000,890000] })
      , ("amazon",
          { volume := 0, cpc := none, competition := none,
            trend := [0,0,0,0,0,0,0,0,0,0,0,0] })
      , ("pinterest",
          { volume := 340000, cpc := none, competition := none,
            trend := [220000,250000,280000,300000,315000,325000,332000,336000,338000,339000,340000,340000] }) ] }

/-- Fixture 4 of `RAW_KEYWORDS`. -/
def raw_whey_protein_isolate : RawKeyword :=
  { keyword := "whey protein isolate"
    platforms :=
      [ ("google",
          { volume := 201000, cpc := some 2.15, competition := some 0.75,
            trend := [185000,188000,192000,195000,198000,200000,200500,201000,201000,201000,201000,201000] })
      , ("youtube",
          { volume := 78000, cpc := none, competition := none,
            trend := [70000,72000,74000,75500,76500,77200,77600,77800,78000,78000,78000,78000] })
      , ("tiktok",
          { volume := 56000, cpc := none, competition := none,
            trend := [40000,44000,48000,51000,53000,54500,55200,55600,55800,56000,56000,56000] })
      , ("instagram",
          { volume := 34000, cpc := none, competition := none,
            trend := [28000,29500,31000,32000,33000,33400,33700,33850,33950,34000,34000,34000] })
      , ("amazon",
          { volume := 445000, cpc := some 2.50, competition := some 0.88,
            trend := [400000,410000,420000,430000,438000,442000,444000,444500,445000,445000,445000,445000] }) ] }

/-- Fixture 5 of `RAW_KEYWORDS`. -/
def raw_pre_workout : RawKeyword :=
  { keyword := "pre workout"
    platforms :=
      [ ("google",
          { volume := 673000, cpc := some 1.45, competition := some 0.65,
            trend := [620000,635000,650000,660000,668000,672000,673000,673000,673000,673000,673000,673000] })
      , ("youtube",
          { volume := 445000, cpc := none, competition := none,
            trend := [380000,400000,420000,432000,440000,444000,445000,445000,445000,445000,445000,445000] })
      , ("tiktok",
          { volume := 560000, cpc := none, competition := none,
            trend := [420000,460000,490000,520000,540000,550000,555000,558000,559000,560000,560000,560000] })
      , ("instagram",
          { volume := 234000, cpc := none, competition := none,
            trend := [200000,210000,220000,226000,230000,232000,233000,233500,234000,234000,234000,234000] })
      , ("amazon",
          { volume := 890000, cpc := some 1.80, competition := some 0.82,
            trend := [800000,830000,860000,875000,885000,888000,890000,890000,890000,890000,890000,890000] }) ] }

/-- Fixture 6 of `RAW_KEYWORDS`. -/
def raw_creatine_monohydrate : RawKeyword :=
  { keyword := "creatine monohydrate"
    platforms :=
      [ ("google",
          { volume := 165000, cpc := some 1.95, competition := some 0.70,
            trend := [140000,148000,155000,160000,163000,164500,165000,165000,165000,165000,165000,165000] })
      , ("youtube",
          { volume := 89000, cpc := none, competition := none,
            trend := [75000,80000,84000,86500,88000,88800,89000,89000,89000,89000,89000,89000] })
      , ("tiktok",
          { volume := 234000, cpc := none, competition := none,
            trend := [150000,175000,195000,215000,225000,230000,232000,233000,234000,234000,234000,234000] })
      , ("instagram",
          { volume := 67000, cpc := none, competition := none,
            trend := [55000,58000,62000,64500,66000,66800,67000,67000,67000,67000,67000,67000] })
      , ("amazon",
          { volume := 320000, cpc := some 2.20, competition := some 0.85,
            trend := [280000,295000,308000,315000,318000,319500,320000,320000,320000,320000,320000,320000] }) ] }

/-- Fixture 7 of `RAW_KEYWORDS`. -/
def raw_that_girl_morning_routine : RawKeyword :=
  { keyword := "that girl morning routine"
    platforms :=
      [ ("google",
          { volume := 12000, cpc := some 0.25, competition := some 0.18,
            trend := [4000,5500,7000,8500,9800,10800,11400,11700,11900,12000,12000,12000] })
      , ("youtube",
          { volume := 156000, cpc := none, competition := none,
            trend := [80000,100000,120000,135000,145000,152000,154500,155500,156000,156000,156000,156000] })
      , ("tiktok",
          { volume := 890000, cpc := none, competition := none,
            trend := [400000,520000,640000,750000,820000,860000,880000,888000,890000,890000,890000,890000] })
      , ("instagram",
          { volume := 445000, cpc := none, competition := none,
            trend := [200000,280000,350000,400000,425000,438000,443000,444500,445000,445000,445000,445000] })
      , ("pinterest",
          { volume := 234000, cpc := none, competition := none,
            trend := [120000,155000,185000,210000,222000,230000,232500,233500,234000,234000,234000,234000] }) ] }

/-- Fixture 8 of `RAW_KEYWORDS`. -/
def raw_fyp_fitness_tips : RawKeyword :=
  { keyword := "fyp fitness tips"
    platforms :=
      [ ("google",
          { volume := 0, cpc := none, competition := none,
            trend := [0,0,0,0,0,0,0,0,0,0,0,0] })
      , ("youtube",
          { volume := 8500, cpc := none, competition := none,
            trend := [3000,4200,5500,6500,7200,7800,8100,8300,8400,8500,8500,8500] })
      , ("tiktok",
          { volume := 560000, cpc := none, competition := none,
            trend := [280000,350000,420000,480000,520000,545000,555000,558000,559500,560000,560000,560000] })
      , ("instagram",
          { volume := 45000, cpc := none, competition := none,
            trend := [20000,26000,32000,37000,41000,43500,44500,44800,45000,45000,45000,45000] }) ] }

/-- Fixture 9 of `RAW_KEYWORDS`. -/
def raw_amazon_protein_powder_best_seller : RawKeyword :=
  { keyword := "amazon protein powder best seller"
    platforms :=
      [ ("google",
          { volume := 18000, cpc := some 1.65, competition := some 0.55,
            trend := [12000,13500,15000,16200,17000,17500,17800,17950,18000,18000,18000,18000] })
      , ("youtube",
          { volume := 23000, cpc := none, competition := none,
            trend := [15000,17500,19500,21000,22000,22600,22900,23000,23000,23000,23000,23000] })
      , ("tiktok",
          { volume := 34000, cpc := none, competition := none,
            trend := [18000,22000,26000,29500,32000,33200,33800,34000,34000,34000,34000,34000] })
      , ("amazon",
          { volume := 245000, cpc := some 2.30, competition := some 0.90,
            trend := [200000,215000,228000,238000,243000,244500,245000,245000,245000,245000,245000,245000] }) ] }

/-- Source `RAW_KEYWORDS` of demo-data.ts. -/
def RAW_KEYWORDS : List RawKeyword :=
  [ raw_protein_powder
  , raw_grwm_protein_shake
  , raw_best_vegan_protein_2024
  , raw_gym_aesthetic
  , raw_whey_protein_isolate
  , raw_pre_workout
  , raw_creatine_monohydrate
  , raw_that_girl_morning_routine
  , raw_fyp_fitness_tips
  , raw_amazon_protein_powder_best_seller ]

/-! ### Keyword index and lookup (demo-data.ts lines 161–189) -/

/-- Source `KEYWORDS` of demo-data.ts. -/
def KEYWORDS : List CrossPlatformKeyword := RAW_KEYWORDS.map buildCrossPlatform

/-- Source `KEYWORD_INDEX` of demo-data.ts: a map from lowercased keyword text to
its record.  All fixture keywords have pairwise distinct lowercased texts,
so first-match association-list lookup coincides with JS `Map.get`. -/
def KEYWORD_INDEX : List (String × CrossPlatformKeyword) :=
  KEYWORDS.map (fun k => (lowerStr k.keyword, k))

/-- The body of `findKeyword` after the query has been normalized
(`query.toLowerCase().trim()`): exact index hit, then first starts-with
match, then first includes match. -/
def findKeywordQ (q : String) : Option CrossPlatformKeyword :=
  match KEYWORD_INDEX.lookup q with
  | some exact => some exact
  | none =>
    match KEYWORDS.find? (fun kw => startsWithStr (lowerStr kw.keyword) q) with
    | some kw => some kw
    | none => KEYWORDS.find? (fun kw => includesStr (lowerStr kw.keyword) q)

/-- Source `findKeyword` of demo-data.ts. -/
def findKeyword (query : String) : Option CrossPlatformKeyword :=
  findKeywordQ (trimStr (lowerStr query))

/-- Source `searchKeywords` of demo-data.ts. -/
def searchKeywords (query : String) : List CrossPlatformKeyword :=
  let q := trimStr (lowerStr query)
  if q == "" then KEYWORDS
  else KEYWORDS.filter (fun kw => includesStr (lowerStr kw.keyword) q)

/-! ### Ads fixtures (demo-data.ts lines 193–283).  Only the fields the
analyzer reads (`id` for traceability, `platform` for the presence flags)
are carried; the remaining fields of the source's `AdCreative` are display
metadata never read by the audited logic. -/

/-- Source `AdCreative` of types.ts, restricted to the fields the analyzer reads. -/
structure AdCreative where
  id : String
  platform : String
  deriving DecidableEq, Repr

/-- Source `ADS_DATA` of demo-data.ts (ids and platform tags of the seven ads). -/
def ADS_DATA : List AdCreative :=
  [ { id := "meta_001", platform := "meta" }
  , { id := "meta_002", platform := "meta" }
  , { id := "meta_003", platform := "meta" }
  , { id := "tiktok_001", platform := "tiktok" }
  , { id := "google_001", platform := "google" }
  , { id := "google_002", platform := "google" }
  , { id := "google_003", platform := "google" } ]

/-- Source `ALL_AD_KEYWORDS` of demo-data.ts. -/
def ALL_AD_KEYWORDS : List String :=
  [ "whey protein", "gold standard", "muscle building", "protein powder"
  , "vegan protein", "plant protein", "plant-based", "ON whey"
  , "pre workout", "best pre workout", "workout supplement"
  , "creatine", "creatine monohydrate", "fitness", "gym" ]

/-- Source `BrandAdLibrary` of types.ts. -/
structure BrandAdLibrary where
  brand_name : String
  brand_domain : String
  ads : List AdCreative
  deriving DecidableEq, Repr

/-- Source `getBrandAdsLocal` of demo-data.ts. -/
def getBrandAdsLocal (domain : String) : BrandAdLibrary :=
  if includesStr (lowerStr domain) "optimumnutrition" then
    { brand_name := "Optimum Nutrition", brand_domain := domain, ads := ADS_DATA }
  else
    { brand_name := domain, brand_domain := domain, ads := [] }

/-- Source `getAdKeywords` of demo-data.ts. -/
def getAdKeywords : List String := ALL_AD_KEYWORDS

/-! ### The analyzer module: strategic pairs and gap detection -/

/-- Source `STRATEGIC_PAIRS` of the analyzer: (high-candidate, low-candidate). -/
def STRATEGIC_PAIRS : List (String × String) :=
  [ ("tiktok", "google")
  , ("instagram", "google")
  , ("youtube", "google")
  , ("tiktok", "youtube")
  , ("amazon", "google")
  , ("pinterest", "google") ]

/-- Source `MIN_VOLUME` of the analyzer. -/
def MIN_VOLUME : ℚ := 1000

/-- The analyzer's gap-ratio threshold constant (value 5.0). -/
def gapRatioThreshold : ℚ := 5

/-- Source `PlatformGapOpportunity` of types.ts (minus the display-only
`recommendation` string, see the header comment). -/
structure PlatformGapOpportunity where
  keyword : String
  opportunity_type : String
  high_volume_platform : String
  high_volume : ℚ
  low_volume_platform : String
  low_volume : ℚ
  volume_ratio : ℚ
  opportunity_score : ℚ
  deriving DecidableEq, Repr

/-- Lookup of `kw.platforms[key]` (JS record access on the platform map). -/
def lookupPlatform (ps : List (String × PlatformData)) (key : String) :
    Option PlatformData :=
  (ps.find? (fun e => e.1 == key)).map (fun e => e.2)

/-- The platform's volume, or `none` when the platform is absent. -/
def platVol (kw : CrossPlatformKeyword) (p : String) : Option ℚ :=
  (lookupPlatform kw.platforms p).map (fun d => d.volume)

/-- Source `lowData?.volume ?? 0`: the platform's volume, defaulting to 0. -/
def platVolD (kw : CrossPlatformKeyword) (p : String) : ℚ :=
  (platVol kw p).getD 0

/-- The body of the `findGaps` loop for one strategic pair; `none` models
the `continue` paths. -/
def gapForPair (kw : CrossPlatformKeyword) (pair : String × String) :
    Option PlatformGapOpportunity :=
  match lookupPlatform kw.platforms pair.1 with
  | none => none
  | some highData =>
    let highVol := highData.volume
    let lowVol := platVolD kw pair.2
    if highVol < MIN_VOLUME then none
    else if lowVol = 0 then
      some { keyword := kw.keyword
             opportunity_type := "platform_gap"
             high_volume_platform := pair.1
             high_volume := highVol
             low_volume_platform := pair.2
             low_volume := lowVol
             volume_ratio := 999
             opportunity_score := 95 }
    else if gapRatioThreshold ≤ highVol / max lowVol 1 then
      some { keyword := kw.keyword
             opportunity_type := "platform_gap"
             high_volume_platform := pair.1
             high_volume := highVol
             low_volume_platform := pair.2
             low_volume := lowVol
             volume_ratio := highVol / lowVol
             opportunity_score := min 90 (50 + highVol / lowVol * 2) }
    else none

/-- Descending order on opportunity scores: the comparator
`(a, b) => b.opportunity_score - a.opportunity_score` of the final sort. -/
def gapScoreDesc (a b : PlatformGapOpportunity) : Prop :=
  b.opportunity_score ≤ a.opportunity_score

instance : DecidableRel gapScoreDesc :=
  fun a b => inferInstanceAs (Decidable (b.opportunity_score ≤ a.opportunity_score))

/-- Source `findGaps` of the analyzer: one candidate per strategic pair, then a
stable sort by descending opportunity score. -/
def findGaps (kw : CrossPlatformKeyword) : List PlatformGapOpportunity :=
  List.insertionSort gapScoreDesc (STRATEGIC_PAIRS.filterMap (gapForPair kw))

/-! ### `calcScore` and `analyzeKeyword` -/

/-- Source `Math.max(...gaps.map(g => g.opportunity_score))` for a non-empty list
(0 for the empty list, which `calcScore` never queries). -/
def maxScoreOf (gaps : List PlatformGapOpportunity) : ℚ :=
  match gaps.map (fun g => g.opportunity_score) with
  | [] => 0
  | s :: rest => rest.foldl max s

/-- The trend test of the `calcScore` loop:
`pd.trend.length >= 12 && pd.trend[11] > pd.trend[0] * 1.2`. -/
def trendRising (pd : PlatformData) : Bool :=
  decide (12 ≤ pd.trend.length) && decide (pd.trend.getD 0 0 * 1.2 < pd.trend.getD 11 0)

/-- Source `calcScore` of the analyzer. -/
def calcScore (kw : CrossPlatformKeyword) (gaps : List PlatformGapOpportunity) : ℚ :=
  let s1 : ℚ :=
    if 1000000 < kw.total_volume then 30
    else if 100000 < kw.total_volume then 20
    else if 10000 < kw.total_volume then 10
    else 0
  let s2 := if gaps.isEmpty then s1 else s1 + maxScoreOf gaps * 0.5
  let s3 := if kw.platforms.any (fun e => trendRising e.2) then s2 + 10 else s2
  min 100 s3

/-- Source `OpportunityAnalysis` of types.ts. -/
structure OpportunityAnalysis where
  keyword : String
  total_volume : ℚ
  primary_platform : Option String
  platforms : List (String × PlatformData)
  platform_gaps : List PlatformGapOpportunity
  opportunity_score : ℚ
  deriving DecidableEq, Repr

/-- Source `analyzeKeyword` of the analyzer. -/
def analyzeKeyword (kw : CrossPlatformKeyword) : OpportunityAnalysis :=
  { keyword := kw.keyword
    total_volume := kw.total_volume
    primary_platform := kw.primary_platform
    platforms := kw.platforms
    platform_gaps := findGaps kw
    opportunity_score := calcScore kw (findGaps kw) }

/-! ### Brand coverage audit (`runBrandCoverage`) -/

/-- The five boolean coverage flags built per audited keyword. -/
structure CoverageFlags where
  meta_ads : Bool
  google_ads : Bool
  tiktok_ads : Bool
  keyword_in_meta : Bool
  keyword_in_google : Bool
  deriving DecidableEq, Repr

/-- Source `BrandCoverageAudit` of types.ts (minus the display-only
`recommendation` string, see the header comment). -/
structure BrandCoverageAudit where
  brand_name : String
  keyword : String
  demand : List (String × ℚ)
  coverage : CoverageFlags
  gap_score : ℚ
  total_demand : ℚ
  covered_demand : ℚ
  uncovered_platforms : List String
  deriving DecidableEq, Repr

/-- JS `Math.round(x * 10) / 10` (round to one decimal, halves up). -/
def round1 (x : ℚ) : ℚ := ((round (x * 10) : ℤ) : ℚ) / 10

/-- Source `demand[p] ?? 0` on the per-keyword demand map. -/
def demandLookup (demand : List (String × ℚ)) (p : String) : ℚ :=
  ((demand.find? (fun e => e.1 == p)).map (fun e => e.2)).getD 0

/-- The `coveredDemand` reduce of `runBrandCoverage`. -/
def coveredOf (demand : List (String × ℚ)) (hasMeta hasGoogle hasTiktok : Bool) : ℚ :=
  demand.foldl
    (fun sum e =>
      if e.1 == "google" && hasGoogle then sum + e.2
      else if e.1 == "tiktok" && hasTiktok then sum + e.2
      else if (e.1 == "instagram" || e.1 == "facebook") && hasMeta then sum + e.2
      else sum)
    0

/-- The per-keyword body of the `runBrandCoverage` map. -/
def auditOne (domain : String) (hasMeta hasGoogle hasTiktok : Bool)
    (adKeywords : List String) (keyword : String) : BrandCoverageAudit :=
  let demand : List (String × ℚ) :=
    match findKeyword keyword with
    | some kwData => kwData.platforms.map (fun e => (e.1, e.2.volume))
    | none => []
  let totalDemand := (demand.map (fun e => e.2)).sum
  let kwLower := lowerStr keyword
  let inAdKeywords :=
    adKeywords.any (fun ak => includesStr kwLower ak || includesStr ak kwLower)
  let uncovered : List String :=
    (if !hasTiktok && decide (0 < demandLookup demand "tiktok") then ["TikTok"] else []) ++
    (if !hasMeta && decide (0 < demandLookup demand "instagram") then ["Instagram"] else []) ++
    (if !inAdKeywords && decide (0 < demandLookup demand "google")
      then ["Google (keyword gap)"] else [])
  let coveredDemand := coveredOf demand hasMeta hasGoogle hasTiktok
  let gapScore : ℚ :=
    if 0 < totalDemand then (totalDemand - coveredDemand) / totalDemand * 100 else 0
  { brand_name := domain
    keyword := keyword
    demand := demand
    coverage :=
      { meta_ads := hasMeta
        google_ads := hasGoogle
        tiktok_ads := hasTiktok
        keyword_in_meta := inAdKeywords && hasMeta
        keyword_in_google := inAdKeywords && hasGoogle }
    gap_score := round1 gapScore
    total_demand := totalDemand
    covered_demand := coveredDemand
    uncovered_platforms := uncovered }

/-- Source `runBrandCoverage` of the analyzer. -/
def runBrandCoverage (domain : String) (keywords : List String) :
    List BrandCoverageAudit :=
  let brandAds := getBrandAdsLocal domain
  let adKeywords := getAdKeywords
  let hasMeta := brandAds.ads.any (fun a => a.platform == "meta")
  let hasGoogle := brandAds.ads.any (fun a => a.platform == "google")
  let hasTiktok := brandAds.ads.any (fun a => a.platform == "tiktok")
  keywords.map (auditOne domain hasMeta hasGoogle hasTiktok adKeywords)

/-! ### Local API client (`api.ts` lines 21–33) -/

/-- Source `getCrossPlatformKeyword` of the local API client: the thrown `Error`
is modelled as the `Except.error` case carrying the error message. -/
def getCrossPlatformKeyword (keyword : String) :
    Except String CrossPlatformKeyword :=
  match findKeyword keyword with
  | none =>
    Except.error
      ("No data found for \"" ++ keyword ++ "\". Try: " ++
        String.intercalate ", " ((searchKeywords "").map (fun k => k.keyword)))
  | some result => Except.ok result

/-! ### Spec-side definition for the lookup refinement claim -/

/-- The three-tier fuzzy-match policy exactly as §4.3 of the spec words it,
for comparison with `findKeyword`: (1) exact case-insensitive match;
(2) first keyword whose text starts with the query (case-insensitive);
(3) first keyword whose text contains the query as a substring
(case-insensitive); `none` if no tier matches. -/
def specTieredLookup (query : String) : Option CrossPlatformKeyword :=
  let q := trimStr (lowerStr query)
  match KEYWORDS.find? (fun kw => lowerStr kw.keyword == q) with
  | some kw => some kw
  | none =>
    match KEYWORDS.find? (fun kw => startsWithStr (lowerStr kw.keyword) q) with
    | some kw => some kw
    | none => KEYWORDS.find? (fun kw => includesStr (lowerStr kw.keyword) q)

/-! ### Helper lemmas -/

/-- Association-list lookup in the lowercased-key index is the first
keyword whose lowercased text equals the query. -/
lemma lookup_map_lower (l : List CrossPlatformKeyword) (q : String) :
    (l.map (fun k => (lowerStr k.keyword, k))).lookup q
      = l.find? (fun k => lowerStr k.keyword == q) := by
  induction l with
  | nil => rfl
  | cons x t ih =>
    by_cases h : q = lowerStr x.keyword
    · simp [List.lookup, List.find?, h]
    · have h1 : (q == lowerStr x.keyword) = false := beq_eq_false_iff_ne.mpr h
      have h2 : (lowerStr x.keyword == q) = false := beq_eq_false_iff_ne.mpr (Ne.symm h)
      simp [List.lookup, List.find?, h1, h2, ih]

/-- Source `Char.toLower` fixes the four whitespace characters. -/
lemma toLower_whitespace {c : Char} (h : c.isWhitespace = true) :
    c.toLower = c := by
  simp only [Char.isWhitespace, Bool.or_eq_true, decide_eq_true_eq] at h
  rcases h with ((h | h) | h) | h <;> subst h <;> decide

/-- A whitespace-only query normalizes (lowercase, then trim) to the empty
string. -/
lemma trim_lower_ws {s : String} (h : ∀ c ∈ s.data, c.isWhitespace = true) :
    trimStr (lowerStr s) = "" := by
  have hall : ∀ c ∈ s.data.map Char.toLower, isWsChar c = true := by
    intro c hc
    rcases List.mem_map.mp hc with ⟨a, ha, rfl⟩
    rw [isWsChar, toLower_whitespace (h a ha)]
    exact h a ha
  have h1 : (s.data.map Char.toLower).dropWhile isWsChar = [] :=
    List.dropWhile_eq_nil_iff.mpr hall
  show String.mk (trimChars (s.data.map Char.toLower)) = ""
  unfold trimChars
  rw [h1]
  rfl

/-- Membership in `findGaps` is production by some strategic pair. -/
lemma mem_findGaps_iff {kw : CrossPlatformKeyword} {g : PlatformGapOpportunity} :
    g ∈ findGaps kw ↔ ∃ p ∈ STRATEGIC_PAIRS, gapForPair kw p = some g := by
  unfold findGaps
  rw [List.mem_insertionSort, List.mem_filterMap]

/-- Inversion of `gapForPair`: what must have held for a gap to be recorded,
and what its fields are in each of the two recording branches. -/
lemma gapForPair_inv {kw : CrossPlatformKeyword} {p : String × String}
    {g : PlatformGapOpportunity} (h : gapForPair kw p = some g) :
    ∃ hd, lookupPlatform kw.platforms p.1 = some hd ∧
      MIN_VOLUME ≤ hd.volume ∧
      g.keyword = kw.keyword ∧
      g.high_volume_platform = p.1 ∧ g.high_volume = hd.volume ∧
      g.low_volume_platform = p.2 ∧ g.low_volume = platVolD kw p.2 ∧
      ((g.low_volume = 0 ∧ g.volume_ratio = 999 ∧ g.opportunity_score = 95) ∨
       (g.low_volume ≠ 0 ∧
        gapRatioThreshold ≤ hd.volume / max (platVolD kw p.2) 1 ∧
        g.volume_ratio = hd.volume / platVolD kw p.2 ∧
        g.opportunity_score = min 90 (50 + hd.volume / platVolD kw p.2 * 2))) := by
  unfold gapForPair at h
  cases hl : lookupPlatform kw.platforms p.1 with
  | none => rw [hl] at h; exact absurd h (by simp)
  | some hd =>
    rw [hl] at h
    dsimp only at h
    refine ⟨hd, rfl, ?_⟩
    by_cases h1 : hd.volume < MIN_VOLUME
    · rw [if_pos h1] at h; exact absurd h (by simp)
    rw [if_neg h1] at h
    refine ⟨not_lt.mp h1, ?_⟩
    by_cases h2 : platVolD kw p.2 = 0
    · rw [if_pos h2] at h
      have hg := (Option.some_inj.mp h).symm
      subst hg
      exact ⟨rfl, rfl, rfl, rfl, rfl, Or.inl ⟨h2, rfl, rfl⟩⟩
    rw [if_neg h2] at h
    by_cases h3 : gapRatioThreshold ≤ hd.volume / max (platVolD kw p.2) 1
    · rw [if_pos h3] at h
      have hg := (Option.some_inj.mp h).symm
      subst hg
      exact ⟨rfl, rfl, rfl, rfl, rfl, Or.inr ⟨h2, h3, rfl, rfl⟩⟩
    · rw [if_neg h3] at h; exact absurd h (by simp)

/-- The initial accumulator bounds a `max`-fold from below. -/
lemma le_foldl_max (l : List ℚ) (a : ℚ) : a ≤ l.foldl max a := by
  induction l generalizing a with
  | nil => exact le_refl a
  | cons x t ih => exact le_trans (le_max_left a x) (ih (max a x))

/-- Every member of the list bounds a `max`-fold from below. -/
lemma mem_le_foldl_max {l : List ℚ} {x : ℚ} (hx : x ∈ l) (a : ℚ) :
    x ≤ l.foldl max a := by
  induction l generalizing a with
  | nil => cases hx
  | cons y t ih =>
    rcases List.mem_cons.mp hx with rfl | hx'
    · exact le_trans (le_max_right a x) (le_foldl_max t (max a x))
    · exact ih hx' (max a y)

/-- Lower bound on `maxScoreOf` from a bound on all member scores. -/
lemma maxScoreOf_ge {gaps : List PlatformGapOpportunity} {c : ℚ}
    (hne : gaps ≠ []) (h : ∀ g ∈ gaps, c ≤ g.opportunity_score) :
    c ≤ maxScoreOf gaps := by
  cases gaps with
  | nil => exact absurd rfl hne
  | cons g t =>
    have hg : c ≤ g.opportunity_score := h g (List.mem_cons_self g t)
    calc c ≤ g.opportunity_score := hg
    _ ≤ (t.map (fun g => g.opportunity_score)).foldl max g.opportunity_score :=
        le_foldl_max _ _

/-- Platform volumes read back through `platVolD` are non-negative when all
volumes in the platform map are. -/
lemma platVolD_nonneg {kw : CrossPlatformKeyword}
    (h : ∀ e ∈ kw.platforms, 0 ≤ e.2.volume) (p : String) :
    0 ≤ platVolD kw p := by
  unfold platVolD platVol lookupPlatform
  cases hf : kw.platforms.find? (fun e => e.1 == p) with
  | none => simp
  | some e =>
    simpa using h e (List.mem_of_find?_eq_some hf)

/-- Every recorded gap has a non-negative low volume when the keyword's
platform volumes are non-negative, and its score lies in `[50, 95]`. -/
lemma findGaps_score_range {kw : CrossPlatformKeyword} {g : PlatformGapOpportunity}
    (hg : g ∈ findGaps kw) (hlow : 0 ≤ g.low_volume) :
    50 ≤ g.opportunity_score ∧ g.opportunity_score ≤ 95 := by
  rcases mem_findGaps_iff.mp hg with ⟨p, _, hgap⟩
  rcases gapForPair_inv hgap with
    ⟨hd, _, hmin, _, _, _, _, hlowv, hcase | hcase⟩
  · rcases hcase with ⟨_, _, hscore⟩
    rw [hscore]; norm_num
  · rcases hcase with ⟨hne, _, _, hscore⟩
    have hlpos : 0 < g.low_volume := lt_of_le_of_ne hlow (Ne.symm hne)
    have hhpos : (0 : ℚ) < hd.volume := lt_of_lt_of_le (by norm_num [MIN_VOLUME]) hmin
    have hratio : 0 < hd.volume / platVolD kw p.2 := by
      rw [← hlowv]; exact div_pos hhpos hlpos
    rw [hscore]
    constructor
    · exact le_min (by norm_num) (by nlinarith)
    · calc min 90 (50 + hd.volume / platVolD kw p.2 * 2) ≤ 90 := min_le_left _ _
      _ ≤ 95 := by norm_num

/-! ### Claim theorems -/

/-- C1: for every `CrossPlatformKeyword` and every configured strategic
pair, if the high-candidate platform is present with volume at least 1000
and the low-candidate platform's volume is 0 (absence counting as 0), then
`findGaps` records an opportunity for that pair with `volume_ratio = 999`
and `opportunity_score = 95`. -/
theorem findGaps_zero_low_sentinel (kw : CrossPlatformKeyword) (high low : String)
    (hpair : (high, low) ∈ STRATEGIC_PAIRS)
    (hpresent : (lookupPlatform kw.platforms high).isSome = true)
    (hvol : 1000 ≤ platVolD kw high)
    (hlow : platVolD kw low = 0) :
    ∃ g ∈ findGaps kw,
      g.high_volume_platform = high ∧ g.low_volume_platform = low ∧
      g.volume_ratio = 999 ∧ g.opportunity_score = 95 := by
  rcases Option.isSome_iff_exists.mp hpresent with ⟨hd, hhd⟩
  have hvd : platVolD kw high = hd.volume := by
    unfold platVolD platVol; rw [hhd]; rfl
  refine ⟨{ keyword := kw.keyword
            opportunity_type := "platform_gap"
            high_volume_platform := high
            high_volume := hd.volume
            low_volume_platform := low
            low_volume := platVolD kw low
            volume_ratio := 999
            opportunity_score := 95 }, ?_, rfl, rfl, rfl, rfl⟩
  refine mem_findGaps_iff.mpr ⟨(high, low), hpair, ?_⟩
  unfold gapForPair
  rw [hhd]
  dsimp only
  rw [if_neg (not_lt.mpr (by rw [← hvd]; exact hvol)), if_pos hlow]

/-- Witness for C1 at the fixture "fyp fitness tips" (tiktok 560000,
google 0): the tiktok→google pair is recorded with ratio 999, score 95. -/
theorem findGaps_zero_low_sentinel_witness :
    ∃ g ∈ findGaps (buildCrossPlatform raw_fyp_fitness_tips),
      g.high_volume_platform = "tiktok" ∧ g.low_volume_platform = "google" ∧
      g.volume_ratio = 999 ∧ g.opportunity_score = 95 :=
  findGaps_zero_low_sentinel (buildCrossPlatform raw_fyp_fitness_tips)
    "tiktok" "google" (by decide) (by decide) (by decide) (by decide)

/-- C2: every opportunity `findGaps` records names a high-candidate
platform that is present in the keyword's platform map, whose recorded
high volume is that platform's volume and is at least 1000; hence no pair
with an absent high platform or high volume below 1000 is ever recorded. -/
theorem findGaps_high_volume_floor (kw : CrossPlatformKeyword) :
    ∀ g ∈ findGaps kw,
      ∃ hd, lookupPlatform kw.platforms g.high_volume_platform = some hd ∧
        g.high_volume = hd.volume ∧ 1000 ≤ g.high_volume := by
  intro g hg
  rcases mem_findGaps_iff.mp hg with ⟨p, _, hgap⟩
  rcases gapForPair_inv hgap with ⟨hd, hlook, hmin, _, hplat, hvol, _⟩
  refine ⟨hd, by rw [hplat]; exact hlook, hvol, ?_⟩
  rw [hvol]
  exact le_trans (by norm_num [MIN_VOLUME]) hmin

/-- Witness for C2 at the fixture "grwm protein shake": its top recorded
gap (tiktok→google, ratio 425/3, score 90) has a present high platform of
volume 340000 ≥ 1000. -/
theorem findGaps_high_volume_floor_witness :
    ∃ hd, lookupPlatform (buildCrossPlatform raw_grwm_protein_shake).platforms
        (PlatformGapOpportunity.mk "grwm protein shake" "platform_gap"
          "tiktok" 340000 "google" 2400 (425/3) 90).high_volume_platform = some hd ∧
      (PlatformGapOpportunity.mk "grwm protein shake" "platform_gap"
        "tiktok" 340000 "google" 2400 (425/3) 90).high_volume = hd.volume ∧
      1000 ≤ (PlatformGapOpportunity.mk "grwm protein shake" "platform_gap"
        "tiktok" 340000 "google" 2400 (425/3) 90).high_volume :=
  findGaps_high_volume_floor (buildCrossPlatform raw_grwm_protein_shake)
    (PlatformGapOpportunity.mk "grwm protein shake" "platform_gap"
      "tiktok" 340000 "google" 2400 (425/3) 90) (by decide)

/-- C3: every gap opportunity recorded with a strictly positive low volume
has its opportunity score in the closed interval [50, 90]. -/
theorem findGaps_score_range_pos_low (kw : CrossPlatformKeyword) :
    ∀ g ∈ findGaps kw, 0 < g.low_volume →
      50 ≤ g.opportunity_score ∧ g.opportunity_score ≤ 90 := by
  intro g hg hpos
  rcases mem_findGaps_iff.mp hg with ⟨p, _, hgap⟩
  rcases gapForPair_inv hgap with
    ⟨hd, _, hmin, _, _, _, _, hlowv, hcase | hcase⟩
  · rcases hcase with ⟨hzero, _, _⟩
    exact absurd hzero (ne_of_gt hpos)
  · rcases hcase with ⟨_, _, _, hscore⟩
    have hhpos : (0 : ℚ) < hd.volume := lt_of_lt_of_le (by norm_num [MIN_VOLUME]) hmin
    have hratio : 0 < hd.volume / platVolD kw p.2 := by
      rw [← hlowv]
      exact div_pos hhpos (hlowv ▸ hpos)
    rw [hscore]
    exact ⟨le_min (by norm_num) (by nlinarith), min_le_left _ _⟩

/-- Witness for C3 at the fixture "grwm protein shake" and its
youtube→google gap (low volume 2400 > 0, score 87.5 ∈ [50, 90]). -/
theorem findGaps_score_range_pos_low_witness :
    50 ≤ (PlatformGapOpportunity.mk "grwm protein shake" "platform_gap"
        "youtube" 45000 "google" 2400 (75/4) (175/2)).opportunity_score ∧
      (PlatformGapOpportunity.mk "grwm protein shake" "platform_gap"
        "youtube" 45000 "google" 2400 (75/4) (175/2)).opportunity_score ≤ 90 :=
  findGaps_score_range_pos_low (buildCrossPlatform raw_grwm_protein_shake)
    (PlatformGapOpportunity.mk "grwm protein shake" "platform_gap"
      "youtube" 45000 "google" 2400 (75/4) (175/2)) (by decide) (by decide)

/-- The `maxVol`/`primaryPlatform` fold either leaves the accumulator
untouched or returns the volume and key of some traversed entry. -/
lemma foldl_primaryStep_cases (l : List (String × RawPlatform)) (a : ℚ)
    (p : Option String) :
    l.foldl primaryStep (a, p) = (a, p) ∨
    ∃ e ∈ l, l.foldl primaryStep (a, p) = (e.2.volume, some e.1) := by
  induction l generalizing a p with
  | nil => exact Or.inl rfl
  | cons x t ih =>
    simp only [List.foldl_cons, primaryStep]
    by_cases hx : a < x.2.volume
    · rw [if_pos hx]
      rcases ih x.2.volume (some x.1) with h | ⟨e, he, h⟩
      · exact Or.inr ⟨x, List.mem_cons_self _ _, h⟩
      · exact Or.inr ⟨e, List.mem_cons_of_mem _ he, h⟩
    · rw [if_neg hx]
      rcases ih a p with h | ⟨e, he, h⟩
      · exact Or.inl h
      · exact Or.inr ⟨e, List.mem_cons_of_mem _ he, h⟩

/-- The first component of the `primaryStep` fold is the running maximum of
the traversed volumes. -/
lemma foldl_primaryStep_fst (l : List (String × RawPlatform)) (a : ℚ)
    (p : Option String) :
    (l.foldl primaryStep (a, p)).1 = (l.map (fun e => e.2.volume)).foldl max a := by
  induction l generalizing a p with
  | nil => rfl
  | cons x t ih =>
    simp only [List.foldl_cons, primaryStep, List.map_cons]
    by_cases hx : a < x.2.volume
    · rw [if_pos hx, ih, max_eq_right hx.le]
    · rw [if_neg hx, ih, max_eq_left (not_lt.mp hx)]

/-- When no traversed volume exceeds the accumulator, the `primaryStep`
fold is the identity. -/
lemma foldl_primaryStep_id {l : List (String × RawPlatform)} {a : ℚ}
    (p : Option String) (h : ∀ e ∈ l, e.2.volume ≤ a) :
    l.foldl primaryStep (a, p) = (a, p) := by
  induction l with
  | nil => rfl
  | cons x t ih =>
    simp only [List.foldl_cons, primaryStep]
    rw [if_neg (not_lt.mpr (h x (List.mem_cons_self _ _)))]
    exact ih (fun e he => h e (List.mem_cons_of_mem _ he))

/-- C5: `buildCrossPlatform` makes `total_volume` the sum of the platform
map's volumes; `primary_platform` is `none` when every raw volume is zero,
and otherwise (some volume positive) names a platform of the map whose
volume is maximal among the map's platforms. -/
theorem buildCrossPlatform_total_and_primary (raw : RawKeyword) :
    (buildCrossPlatform raw).total_volume
        = (((buildCrossPlatform raw).platforms).map (fun e => e.2.volume)).sum
    ∧ ((∀ e ∈ raw.platforms, e.2.volume = 0) →
        (buildCrossPlatform raw).primary_platform = none)
    ∧ ((∃ e ∈ raw.platforms, 0 < e.2.volume) →
        ∃ k d, (buildCrossPlatform raw).primary_platform = some k
          ∧ (k, d) ∈ (buildCrossPlatform raw).platforms
          ∧ ∀ e ∈ (buildCrossPlatform raw).platforms, e.2.volume ≤ d.volume) := by
  refine ⟨?_, ?_, ?_⟩
  · simp only [buildCrossPlatform, List.map_map]
    rfl
  · intro hzero
    have h0 : raw.platforms.foldl primaryStep (0, none) = (0, none) :=
      foldl_primaryStep_id none (fun e he => le_of_eq (hzero e he))
    simp [buildCrossPlatform, h0]
  · rintro ⟨e0, he0, hpos⟩
    rcases foldl_primaryStep_cases raw.platforms 0 none with hid | ⟨e, he, hfold⟩
    · exfalso
      have h1 : e0.2.volume ≤ (raw.platforms.foldl primaryStep (0, none)).1 := by
        rw [foldl_primaryStep_fst]
        exact mem_le_foldl_max (List.mem_map_of_mem (fun e => e.2.volume) he0) 0
      rw [hid] at h1
      exact absurd (lt_of_lt_of_le hpos h1) (lt_irrefl 0)
    · refine ⟨e.1, toPlatformData e.1 e.2, ?_, ?_, ?_⟩
      · simp [buildCrossPlatform, hfold]
      · exact List.mem_map_of_mem (fun x => (x.1, toPlatformData x.1 x.2)) he
      · intro x hx
        rcases List.mem_map.mp hx with ⟨y, hy, rfl⟩
        show y.2.volume ≤ e.2.volume
        have h1 : y.2.volume ≤ (raw.platforms.foldl primaryStep (0, none)).1 := by
          rw [foldl_primaryStep_fst]
          exact mem_le_foldl_max (List.mem_map_of_mem (fun e => e.2.volume) hy) 0
        rw [hfold] at h1
        exact h1

/-- Witness for C5 at the fixture "protein powder" (all volumes positive):
its primary platform is a maximal-volume platform of the map. -/
theorem buildCrossPlatform_total_and_primary_witness :
    ∃ k d, (buildCrossPlatform raw_protein_powder).primary_platform = some k
      ∧ (k, d) ∈ (buildCrossPlatform raw_protein_powder).platforms
      ∧ ∀ e ∈ (buildCrossPlatform raw_protein_powder).platforms,
          e.2.volume ≤ d.volume :=
  (buildCrossPlatform_total_and_primary raw_protein_powder).2.2 (by decide)

/-- C4: the aggregate opportunity score of `analyzeKeyword` equals the
volume-tier summand (30 / 20 / 10 / 0), plus half the maximum individual
gap score when gaps exist, plus a single 10-point trend bonus when some
platform's trend series has at least 12 points with the 12th exceeding 1.2
times the first, capped at 100; and (volumes being non-negative) the score
always lies in [0, 100]. -/
theorem analyzeKeyword_score_formula (kw : CrossPlatformKeyword)
    (h : ∀ e ∈ kw.platforms, 0 ≤ e.2.volume) :
    (analyzeKeyword kw).opportunity_score =
      min 100
        ((if 1000000 < kw.total_volume then (30 : ℚ)
          else if 100000 < kw.total_volume then 20
          else if 10000 < kw.total_volume then 10 else 0)
         + (if (findGaps kw).isEmpty then 0 else maxScoreOf (findGaps kw) * 0.5)
         + (if kw.platforms.any (fun e => trendRising e.2) then 10 else 0))
    ∧ 0 ≤ (analyzeKeyword kw).opportunity_score
    ∧ (analyzeKeyword kw).opportunity_score ≤ 100 := by
  have hproj : (analyzeKeyword kw).opportunity_score = calcScore kw (findGaps kw) := rfl
  have htier : (0 : ℚ) ≤
      (if 1000000 < kw.total_volume then (30 : ℚ)
        else if 100000 < kw.total_volume then 20
        else if 10000 < kw.total_volume then 10 else 0) := by
    split_ifs <;> norm_num
  have hgapb : (0 : ℚ) ≤
      (if (findGaps kw).isEmpty then 0 else maxScoreOf (findGaps kw) * 0.5) := by
    split_ifs with hg
    · exact le_refl 0
    · have hne : findGaps kw ≠ [] := by
        intro hnil
        rw [hnil] at hg
        exact hg rfl
      have hlow : ∀ g ∈ findGaps kw, 0 ≤ g.low_volume := by
        intro g hgm
        rcases mem_findGaps_iff.mp hgm with ⟨p, _, hgap⟩
        rcases gapForPair_inv hgap with ⟨hd, _, _, _, _, _, _, hlowv, _⟩
        rw [hlowv]
        exact platVolD_nonneg h p.2
      have hmax : (50 : ℚ) ≤ maxScoreOf (findGaps kw) :=
        maxScoreOf_ge hne
          (fun g hgm => (findGaps_score_range hgm (hlow g hgm)).1)
      nlinarith
  have htrend : (0 : ℚ) ≤
      (if kw.platforms.any (fun e => trendRising e.2) then (10 : ℚ) else 0) := by
    split_ifs <;> norm_num
  have heq : calcScore kw (findGaps kw) =
      min 100
        ((if 1000000 < kw.total_volume then (30 : ℚ)
          else if 100000 < kw.total_volume then 20
          else if 10000 < kw.total_volume then 10 else 0)
         + (if (findGaps kw).isEmpty then 0 else maxScoreOf (findGaps kw) * 0.5)
         + (if kw.platforms.any (fun e => trendRising e.2) then 10 else 0)) := by
    unfold calcScore
    by_cases hg : (findGaps kw).isEmpty <;>
      by_cases ht : kw.platforms.any (fun e => trendRising e.2) <;>
        simp [hg, ht]
  refine ⟨hproj.trans heq, ?_, ?_⟩
  · rw [hproj, heq]
    exact le_min (by norm_num) (add_nonneg (add_nonneg htier hgapb) htrend)
  · rw [hproj, heq]
    exact min_le_left _ _

/-- Witness for C4 at the fixture "protein powder" (all volumes
non-negative): the aggregate score lies in [0, 100]. -/
theorem analyzeKeyword_score_formula_witness :
    0 ≤ (analyzeKeyword (buildCrossPlatform raw_protein_powder)).opportunity_score
    ∧ (analyzeKeyword (buildCrossPlatform raw_protein_powder)).opportunity_score ≤ 100 :=
  ⟨(analyzeKeyword_score_formula (buildCrossPlatform raw_protein_powder) (by decide)).2.1,
   (analyzeKeyword_score_formula (buildCrossPlatform raw_protein_powder) (by decide)).2.2⟩

/-- C6: `findKeyword` implements exactly the three-tier precedence policy
(exact case-insensitive, then first starts-with, then first substring
match, else none), and in particular the query "protein" returns the
"protein powder" record, the first starts-with match in index order. -/
theorem findKeyword_tiered_and_protein :
    (∀ query, findKeyword query = specTieredLookup query)
    ∧ findKeyword "protein" = some (buildCrossPlatform raw_protein_powder) := by
  constructor
  · intro query
    unfold findKeyword findKeywordQ specTieredLookup KEYWORD_INDEX
    rw [lookup_map_lower]
  · decide

/-- C9: on the fixture "whey protein isolate" (google 201000, tiktok
56000) `findGaps` records no opportunity for the tiktok→google pair: the
ratio 56000 / max(201000, 1) is below the gap-ratio threshold 5. -/
theorem whey_no_tiktok_google_gap :
    ((findGaps (buildCrossPlatform raw_whey_protein_isolate)).filter
        (fun g => g.high_volume_platform == "tiktok"
          && g.low_volume_platform == "google")) = []
    ∧ platVol (buildCrossPlatform raw_whey_protein_isolate) "google" = some 201000
    ∧ platVol (buildCrossPlatform raw_whey_protein_isolate) "tiktok" = some 56000
    ∧ (56000 : ℚ) / max 201000 1 < gapRatioThreshold := by
  refine ⟨by decide, by decide, by decide, by decide⟩

/-- C10: an empty or whitespace-only query does not produce the no-match
result: after normalization the query is empty, the prefix tier matches
every keyword, and `findKeyword` returns the first keyword of the fixture
list ("protein powder"). -/
theorem findKeyword_whitespace_query (query : String)
    (h : ∀ c ∈ query.data, c.isWhitespace = true) :
    findKeyword query = KEYWORDS.head?
    ∧ findKeyword query ≠ none
    ∧ KEYWORDS.head? = some (buildCrossPlatform raw_protein_powder) := by
  have hq : trimStr (lowerStr query) = "" := trim_lower_ws h
  unfold findKeyword
  rw [hq]
  refine ⟨by decide, by decide, by decide⟩

/-- Witness for C10 at the whitespace-only query `" "`. -/
theorem findKeyword_whitespace_query_witness :
    findKeyword " " = KEYWORDS.head?
    ∧ findKeyword " " ≠ none
    ∧ KEYWORDS.head? = some (buildCrossPlatform raw_protein_powder) :=
  findKeyword_whitespace_query " " (by decide)

/-- The gap-score field of one audit record, in terms of its own
total/covered demand fields (pure unfolding of `auditOne`). -/
lemma auditOne_gap_score_eq (domain : String) (m g t : Bool)
    (aks : List String) (k : String) :
    (auditOne domain m g t aks k).gap_score =
      round1
        (if 0 < (auditOne domain m g t aks k).total_demand
          then ((auditOne domain m g t aks k).total_demand
              - (auditOne domain m g t aks k).covered_demand)
            / (auditOne domain m g t aks k).total_demand * 100
          else 0) := rfl

/-- C7: for every audited keyword, `gap_score` is
`(total − covered) / total × 100` rounded to one decimal when the total
demand is positive, 0 when the total demand is 0, and in particular 100
whenever the covered demand is 0 with positive total demand. -/
theorem runBrandCoverage_gap_score (domain : String) (keywords : List String) :
    ∀ a ∈ runBrandCoverage domain keywords,
      (0 < a.total_demand →
        a.gap_score = round1 ((a.total_demand - a.covered_demand) / a.total_demand * 100))
      ∧ (a.total_demand = 0 → a.gap_score = 0)
      ∧ (a.covered_demand = 0 → 0 < a.total_demand → a.gap_score = 100) := by
  intro a ha
  have hmem : ∃ k ∈ keywords,
      auditOne domain
        ((getBrandAdsLocal domain).ads.any (fun x => x.platform == "meta"))
        ((getBrandAdsLocal domain).ads.any (fun x => x.platform == "google"))
        ((getBrandAdsLocal domain).ads.any (fun x => x.platform == "tiktok"))
        getAdKeywords k = a := by
    simpa [runBrandCoverage] using ha
  rcases hmem with ⟨k, _, rfl⟩
  rw [auditOne_gap_score_eq]
  refine ⟨?_, ?_, ?_⟩
  · intro hpos
    rw [if_pos hpos]
  · intro h0
    rw [if_neg (by rw [h0]; exact lt_irrefl 0)]
    norm_num [round1]
  · intro hcov hpos
    rw [if_pos hpos, hcov, sub_zero, div_self (ne_of_gt hpos), one_mul]
    rw [round1, show ((100 : ℚ) * 10) = ((1000 : ℤ) : ℚ) by norm_num, round_intCast]
    norm_num

/-- Witness for C7 at brand domain "x" with the unmatched keyword "zzz"
(total demand 0, so the gap score is 0). -/
theorem runBrandCoverage_gap_score_witness :
    (BrandCoverageAudit.mk "x" "zzz" []
        (CoverageFlags.mk false false false false false) 0 0 0 []).gap_score = 0 :=
  ((runBrandCoverage_gap_score "x" ["zzz"])
      (BrandCoverageAudit.mk "x" "zzz" []
        (CoverageFlags.mk false false false false false) 0 0 0 [])
      (by decide)).2.1 rfl

/-- C8: the local API client raises "No data found" exactly when
`findKeyword` finds no match; the error message lists the index's sample
keywords; and on a match the matched record is returned unchanged. -/
theorem getCrossPlatformKeyword_not_found (keyword : String) :
    ((∃ e, getCrossPlatformKeyword keyword = Except.error e)
      ↔ findKeyword keyword = none)
    ∧ (findKeyword keyword = none →
        getCrossPlatformKeyword keyword = Except.error
          ("No data found for \"" ++ keyword ++ "\". Try: " ++
            "protein powder, grwm protein shake, best vegan protein 2024, gym aesthetic, whey protein isolate, pre workout, creatine monohydrate, that girl morning routine, fyp fitness tips, amazon protein powder best seller"))
    ∧ (∀ kw, findKeyword keyword = some kw →
        getCrossPlatformKeyword keyword = Except.ok kw) := by
  have hsamples :
      String.intercalate ", " ((searchKeywords "").map (fun k => k.keyword))
        = "protein powder, grwm protein shake, best vegan protein 2024, gym aesthetic, whey protein isolate, pre workout, creatine monohydrate, that girl morning routine, fyp fitness tips, amazon protein powder best seller" := by
    decide
  cases hf : findKeyword keyword with
  | none =>
    have hrun : getCrossPlatformKeyword keyword = Except.error
        ("No data found for \"" ++ keyword ++ "\". Try: " ++
          String.intercalate ", " ((searchKeywords "").map (fun k => k.keyword))) := by
      unfold getCrossPlatformKeyword
      rw [hf]
    rw [hsamples] at hrun
    exact ⟨⟨fun _ => rfl, fun _ => ⟨_, hrun⟩⟩, fun _ => hrun,
      fun kw hkw => absurd hkw (by simp)⟩
  | some r =>
    have hrun : getCrossPlatformKeyword keyword = Except.ok r := by
      unfold getCrossPlatformKeyword
      rw [hf]
    refine ⟨⟨?_, fun hnone => absurd hnone (by simp)⟩,
      fun hnone => absurd hnone (by simp), ?_⟩
    · rintro ⟨e, he⟩
      rw [hrun] at he
      exact absurd he (by simp)
    · intro kw hkw
      have hr : r = kw := Option.some_inj.mp hkw
      rw [← hr]
      exact hrun

/-- Witness for C8 at the unmatched keyword "zzz": the client returns the
"No data found" error listing all ten sample keywords. -/
theorem getCrossPlatformKeyword_not_found_witness :
    getCrossPlatformKeyword "zzz" = Except.error
      ("No data found for \"" ++ "zzz" ++ "\". Try: " ++
        "protein powder, grwm protein shake, best vegan protein 2024, gym aesthetic, whey protein isolate, pre workout, creatine monohydrate, that girl morning routine, fyp fitness tips, amazon protein powder best seller") :=
  (getCrossPlatformKeyword_not_found "zzz").2.1 (by decide)

end WppTotalSearch
